import Mathlib

/-!
Shallow embedding of `webhook-server.js`: a Stripe webhook endpoint that
verifies a signature, materializes an order record from a
`checkout.session.completed` session, inserts it into a `orders` store,
and attempts a confirmation email, always answering 200 to authenticated
requests.

JavaScript values flowing through the handler are modelled by `JVal`
(undefined, null, NaN, number as a rational, string).  The cryptographic
signature check (`stripe.webhooks.constructEvent`) and the outcomes of the
two external calls (Supabase insert, Resend send) are inputs to the
handler function, so theorems quantify over them.
-/

/-- A JavaScript value as it appears in the order-record fields:
`undefined` is `undefined`, `null` is `null`, `nan` is `NaN`,
`num` a finite number (modelled as a rational), `str` a string. -/
inductive JVal where
  | undefined
  | null
  | nan
  | num (q : ℚ)
  | str (s : String)
deriving DecidableEq

/-- JavaScript truthiness on the values above: `undefined`, `null`, `NaN`,
`0` and `""` are falsy, every other number or string is truthy. -/
def JVal.truthy : JVal → Bool
  | .num q => decide (q ≠ 0)
  | .str s => decide (s ≠ "")
  | _ => false

/-- JavaScript `a || b`. -/
def jsOr (a b : JVal) : JVal := if a.truthy then a else b

/-- The `session.metadata` object; every Stripe metadata value is a string,
absent keys read as `undefined` (here `none`). -/
structure Metadata where
  bindingType : Option String
  bindingName : Option String
  format : Option String
  paperWeight : Option String
  printingOption : Option String
  pageCount : Option String
  totalPrice : Option String
  paymentMethod : Option String
deriving DecidableEq

/-- The `session.customer_details` object.  The `address` sub-object is
modelled by its JSON serialization (the code only ever applies
`JSON.stringify` to it); an object present is always truthy. -/
structure CustomerDetails where
  email : Option String
  name : Option String
  address : Option String
  phone : Option String
deriving DecidableEq

/-- The checkout session (`event.data.object`).  `amount_total` is `some q`
when the session carries a number and `none` when the field is absent
(`undefined` in JavaScript, so `amount_total / 100` is `NaN`). -/
structure Session where
  id : String
  customer_details : Option CustomerDetails
  customer_email : Option String
  payment_status : Option String
  amount_total : Option ℚ
  currency : Option String
  metadata : Option Metadata
deriving DecidableEq

/-- Leading-whitespace removal, as both `parseInt` and `parseFloat` do. -/
def dropWs (cs : List Char) : List Char := cs.dropWhile Char.isWhitespace

/-- Value of a run of decimal digit characters. -/
def digitsToNat (ds : List Char) : Nat :=
  ds.foldl (fun a c => a * 10 + (c.toNat - 48)) 0

/-- Optional leading sign, as consumed by `parseInt` / `parseFloat`. -/
def splitSign : List Char → ℚ × List Char
  | '-' :: t => (-1, t)
  | '+' :: t => (1, t)
  | cs => (1, cs)

/-- ECMAScript `parseInt(s)` on the decimal strings this pipeline sees:
skip whitespace, optional sign, longest decimal-digit prefix; `NaN` when
that prefix is empty.  (The hexadecimal `0x` form is not modelled.) -/
def jsParseInt (s : String) : JVal :=
  let p := splitSign (dropWs s.toList)
  let ds := p.2.takeWhile Char.isDigit
  if ds.isEmpty then .nan else .num (p.1 * digitsToNat ds)

/-- Exponent suffix of `parseFloat`: `e`/`E`, optional sign, digit run;
anything unparseable past the mantissa is ignored (exponent 0). -/
def expPart : List Char → ℤ
  | c :: t =>
    if c = 'e' ∨ c = 'E' then
      match t with
      | '-' :: u => -(digitsToNat (u.takeWhile Char.isDigit) : ℤ)
      | '+' :: u => (digitsToNat (u.takeWhile Char.isDigit) : ℤ)
      | u => (digitsToNat (u.takeWhile Char.isDigit) : ℤ)
    else 0
  | [] => 0

/-- ECMAScript `parseFloat(s)`: whitespace, sign, integer digits, optional
fraction, optional exponent; `NaN` when no digit was read at all. -/
def jsParseFloat (s : String) : JVal :=
  let p := splitSign (dropWs s.toList)
  let ip := p.2.takeWhile Char.isDigit
  let cs1 := p.2.dropWhile Char.isDigit
  let fr : List Char × List Char :=
    match cs1 with
    | '.' :: t => (t.takeWhile Char.isDigit, t.dropWhile Char.isDigit)
    | _ => ([], cs1)
  if ip.isEmpty && fr.1.isEmpty then .nan
  else
    .num (p.1 * ((digitsToNat ip : ℚ) + (digitsToNat fr.1 : ℚ) / (10 : ℚ) ^ fr.1.length)
      * (10 : ℚ) ^ expPart fr.2)

/-- Lift an optional string field to its JavaScript value: an absent key
(or an absent object earlier in a `?.` chain) reads as `undefined`. -/
def optStr : Option String → JVal
  | some s => .str s
  | none => .undefined

/-- `session.metadata?.f` — `undefined` when the metadata object is absent. -/
def metaField (session : Session) (f : Metadata → Option String) : JVal :=
  match session.metadata with
  | some m => optStr (f m)
  | none => .undefined

/-- `session.customer_details?.f`. -/
def cdField (session : Session) (f : CustomerDetails → Option String) : JVal :=
  match session.customer_details with
  | some cd => optStr (f cd)
  | none => .undefined

/-- The pattern `v ? parse(v) : null` applied to a metadata string:
falsy (absent or empty) selects `null`, otherwise the parse result. -/
def condParseField (v : JVal) (p : String → JVal) : JVal :=
  match v with
  | .str s => if s = "" then .null else p s
  | _ => .null

/-- `session.amount_total` read directly (`amount` column). -/
def amountField (session : Session) : JVal :=
  match session.amount_total with
  | some q => .num q
  | none => .undefined

/-- `session.amount_total / 100`: dividing `undefined` by 100 gives `NaN`. -/
def priceField (session : Session) : JVal :=
  match session.amount_total with
  | some q => .num (q / 100)
  | none => .nan

/-- `session.customer_details?.address ? JSON.stringify(address) : null`. -/
def addressField (session : Session) : JVal :=
  match session.customer_details with
  | some cd =>
    match cd.address with
    | some a => .str a
    | none => .null
  | none => .null

/-- The row shape inserted into the `orders` table (the `orderData` object
literal of the handler), one `JVal` per column. -/
structure OrderData where
  user_email : JVal
  binding_type : JVal
  price : JVal
  status : JVal
  payment_status : JVal
  amount : JVal
  currency : JVal
  stripe_session_id : JVal
  created_at : JVal
  binding_name : JVal
  format : JVal
  paper_weight : JVal
  printing_option : JVal
  page_count : JVal
  total_price : JVal
  payment_method : JVal
  customer_name : JVal
  customer_address : JVal
  customer_phone : JVal
deriving DecidableEq

/-- The materializer: the `orderData` object literal built by the handler
for a `checkout.session.completed` session.  `now` stands for
`new Date().toISOString()`. -/
def buildOrderData (session : Session) (now : String) : OrderData :=
  { user_email := jsOr (cdField session (fun cd => cd.email)) (optStr session.customer_email)
    binding_type := metaField session (fun m => m.bindingType)
    price := priceField session
    status := .str "paid"
    payment_status := optStr session.payment_status
    amount := amountField session
    currency := optStr session.currency
    stripe_session_id := .str session.id
    created_at := .str now
    binding_name := jsOr (metaField session (fun m => m.bindingName)) .null
    format := jsOr (metaField session (fun m => m.format)) .null
    paper_weight := jsOr (metaField session (fun m => m.paperWeight)) .null
    printing_option := jsOr (metaField session (fun m => m.printingOption)) .null
    page_count := condParseField (metaField session (fun m => m.pageCount)) jsParseInt
    total_price := condParseField (metaField session (fun m => m.totalPrice)) jsParseFloat
    payment_method := jsOr (metaField session (fun m => m.paymentMethod)) .null
    customer_name := jsOr (cdField session (fun cd => cd.name)) .null
    customer_address := addressField session
    customer_phone := jsOr (cdField session (fun cd => cd.phone)) .null }

/-- The fixed HTML body of the confirmation email. -/
def confirmationHtml : String :=
  "<h1>Danke für deine Bestellung!</h1><p>Dein Auftrag wurde erfolgreich übermittelt.</p>"

/-- The payload handed to `resend.emails.send` (`from` is a reserved word
in Lean, hence `from_`). -/
structure EmailPayload where
  from_ : String
  to_ : JVal
  subject : String
  html : String
deriving DecidableEq

/-- The `emailPayload` object built inside `sendConfirmationEmail`. -/
def confirmationEmailPayload (orderData : OrderData) : EmailPayload :=
  { from_ := "info@pocat.de"
    to_ := orderData.user_email
    subject := "Danke für deine Bestellung"
    html := confirmationHtml }

/-- Which backing-service clients were constructed at startup
(`stripe`, `supabase`, `resend` module-level constants). -/
structure Services where
  stripe : Bool
  supabase : Bool
  resend : Bool
deriving DecidableEq

/-- The guard `!stripe || !supabase || !resend`, negated. -/
def configured (svc : Services) : Bool := svc.stripe && svc.supabase && svc.resend

/-- A verified Stripe event: its `type` tag and `event.data.object`. -/
structure StripeEvent where
  type : String
  session : Session
deriving DecidableEq

/-- The response bodies the handler can produce: `ack rid` is the JSON
body `received: true` with the request id, `webhookError` the plain-text
400 body, `notConfigured` the 500 configuration-error JSON. -/
inductive RespBody where
  | ack (requestId : String)
  | webhookError (msg : String)
  | notConfigured
deriving DecidableEq

/-- An HTTP response: status code and body. -/
structure HttpResponse where
  status : Nat
  body : RespBody
deriving DecidableEq

/-- Observable downstream state: rows inserted into the `orders` table and
email payloads handed to the provider (send attempts). -/
structure ServerState where
  orders : List OrderData
  sentEmails : List EmailPayload
deriving DecidableEq

/-- Outcomes of the two external calls during one request: `insertError`
is the `error` component of the Supabase insert result, `emailError` the
`error` component of the Resend send result. -/
structure RequestEnv where
  insertError : Option String
  emailError : Option String
deriving DecidableEq

/-- The `POST /webhook` handler.  `verify` is the outcome of
`stripe.webhooks.constructEvent` (`Except.error` when it throws).  The
`try` block absorbs every downstream failure: an insert error throws past
the email step, an email error throws after the attempt was made, and in
all cases the handler falls through to `res.status(200)`. -/
def handleWebhook (svc : Services) (verify : Except String StripeEvent)
    (env : RequestEnv) (now requestId : String) (st : ServerState) :
    HttpResponse × ServerState :=
  if configured svc then
    match verify with
    | .error msg =>
      ({ status := 400, body := .webhookError ("Webhook Error: " ++ msg) }, st)
    | .ok event =>
      if event.type = "checkout.session.completed" then
        let orderData := buildOrderData event.session now
        if svc.supabase then
          match env.insertError with
          | some _ =>
            ({ status := 200, body := .ack requestId }, st)
          | none =>
            if svc.resend then
              ({ status := 200, body := .ack requestId },
               { orders := st.orders ++ [orderData],
                 sentEmails := st.sentEmails ++ [confirmationEmailPayload orderData] })
            else
              ({ status := 200, body := .ack requestId },
               { orders := st.orders ++ [orderData], sentEmails := st.sentEmails })
        else
          ({ status := 200, body := .ack requestId }, st)
      else
        ({ status := 200, body := .ack requestId }, st)
  else
    ({ status := 500, body := .notConfigured }, st)

/-- List-based prefix test used for substring checks. -/
def isPrefixList : List Char → List Char → Bool
  | [], _ => true
  | _ :: _, [] => false
  | a :: as, b :: bs => a = b && isPrefixList as bs

/-- Substring occurrence test. -/
def containsSubstr (s pat : String) : Bool :=
  s.toList.tails.any (fun t => isPrefixList pat.toList t)

/-- Fully populated metadata, as in the repository's manual-test fixture. -/
def mdFull : Metadata :=
  { bindingType := some "softcover-classic"
    bindingName := some "Softcover Classic"
    format := some "A4"
    paperWeight := some "80g"
    printingOption := some "single-sided"
    pageCount := some "10"
    totalPrice := some "9.99"
    paymentMethod := some "credit_card" }

/-- Metadata whose numeric fields are present but not parseable. -/
def mdBad : Metadata := { mdFull with pageCount := some "abc", totalPrice := some "n/a" }

/-- A populated `customer_details` object. -/
def cdFull : CustomerDetails :=
  { email := some "test@example.com"
    name := some "Test Customer"
    address := some "Musterstrasse 1, 10115 Berlin, DE"
    phone := some "+49123456789" }

/-- A fully populated checkout session. -/
def sFull : Session :=
  { id := "cs_1"
    customer_details := some cdFull
    customer_email := none
    payment_status := some "paid"
    amount_total := some 695
    currency := some "eur"
    metadata := some mdFull }

/-- A checkout session with no metadata and no customer details. -/
def sNoMeta : Session :=
  { id := "cs_0"
    customer_details := none
    customer_email := none
    payment_status := some "paid"
    amount_total := some 695
    currency := some "eur"
    metadata := none }

/-- The populated session with non-parseable numeric metadata. -/
def sBadNumeric : Session := { sFull with id := "cs_bad", metadata := some mdBad }

/-- All three backing-service clients constructed. -/
def svcAll : Services := { stripe := true, supabase := true, resend := true }

/-- Email client missing from configuration. -/
def svcNoResend : Services := { stripe := true, supabase := true, resend := false }

/-- Both external calls succeed. -/
def envOk : RequestEnv := { insertError := none, emailError := none }

/-- The durable store rejects the insert. -/
def envInsertFail : RequestEnv :=
  { insertError := some "connection refused", emailError := none }

/-- Empty downstream state. -/
def st0 : ServerState := { orders := [], sentEmails := [] }

/-- A verified checkout-completed event for `sFull`. -/
def evFull : StripeEvent := { type := "checkout.session.completed", session := sFull }

/-- A verified event of a type the pipeline does not act on. -/
def evOther : StripeEvent := { type := "payment_intent.succeeded", session := sFull }

/-- First delivery of `evFull` against the empty state. -/
def runOnce : HttpResponse × ServerState :=
  handleWebhook svcAll (Except.ok evFull) envOk "2025-01-01T00:00:00.000Z" "r1" st0

/-- Second delivery of the same event (same session id) right after. -/
def runTwice : HttpResponse × ServerState :=
  handleWebhook svcAll (Except.ok evFull) envOk "2025-01-01T00:00:00.000Z" "r2" runOnce.2

lemma configured_fields (svc : Services) (hc : configured svc = true) :
    svc.stripe = true ∧ svc.supabase = true ∧ svc.resend = true := by
  simpa [configured, Bool.and_eq_true, and_assoc] using hc

lemma ack_of_ok (svc : Services) (ev : StripeEvent) (env : RequestEnv)
    (now rid : String) (st : ServerState) (hc : configured svc = true) :
    (handleWebhook svc (Except.ok ev) env now rid st).1 =
      { status := 200, body := RespBody.ack rid } := by
  simp only [handleWebhook, hc, if_true]
  split
  · rcases env.insertError with _ | e
    · by_cases hsu : svc.supabase <;> by_cases hr : svc.resend <;> simp [hsu, hr]
    · by_cases hsu : svc.supabase <;> simp [hsu]
  · rfl

/-- C1: every `POST /webhook` request whose signature verification succeeds
is answered 200 with the `received: true` body carrying the request id, no
matter what the insert and email calls did; and a non-200 response can
arise only from a missing backing-service client (configuration fault) or
a signature-verification failure. -/
theorem ack_on_authenticated_request :
    (∀ (svc : Services) (ev : StripeEvent) (env : RequestEnv)
        (now rid : String) (st : ServerState),
      configured svc = true →
      (handleWebhook svc (Except.ok ev) env now rid st).1 =
        { status := 200, body := RespBody.ack rid }) ∧
    (∀ (svc : Services) (verify : Except String StripeEvent) (env : RequestEnv)
        (now rid : String) (st : ServerState),
      (handleWebhook svc verify env now rid st).1.status ≠ 200 →
      configured svc = false ∨ ∃ msg, verify = Except.error msg) := by
  refine ⟨fun svc ev env now rid st hc => ack_of_ok svc ev env now rid st hc, ?_⟩
  intro svc verify env now rid st h
  cases hcb : configured svc with
  | false => exact Or.inl rfl
  | true =>
    cases verify with
    | error msg => exact Or.inr ⟨msg, rfl⟩
    | ok ev =>
      rw [ack_of_ok svc ev env now rid st hcb] at h
      exact absurd rfl h

/-- C1 witness: a concrete authenticated request is acknowledged. -/
theorem ack_on_authenticated_request_witness :
    (handleWebhook svcAll (Except.ok evOther) envOk "2025-01-01T00:00:00.000Z" "r0" st0).1 =
      { status := 200, body := RespBody.ack "r0" } :=
  ack_on_authenticated_request.1 svcAll evOther envOk "2025-01-01T00:00:00.000Z" "r0" st0 rfl

/-- C6: with all clients configured, a signature-verification failure is
answered 400 with the plain-text body `Webhook Error: <detail>` and leaves
the store and the outbox untouched (the whole result state is unchanged). -/
theorem reject_on_signature_failure :
    ∀ (svc : Services) (msg : String) (env : RequestEnv)
        (now rid : String) (st : ServerState),
      configured svc = true →
      handleWebhook svc (Except.error msg) env now rid st =
        ({ status := 400, body := RespBody.webhookError ("Webhook Error: " ++ msg) }, st) := by
  intro svc msg env now rid st hc
  simp [handleWebhook, hc]

/-- C6 witness: a concrete rejected request. -/
theorem reject_on_signature_failure_witness :
    handleWebhook svcAll (Except.error "No signatures found") envOk "t" "r6" st0 =
      ({ status := 400,
         body := RespBody.webhookError ("Webhook Error: " ++ "No signatures found") }, st0) :=
  reject_on_signature_failure svcAll "No signatures found" envOk "t" "r6" st0 rfl

/-- C7: an authenticated event of any type other than
`checkout.session.completed` is acknowledged with 200 and leaves the store
and the outbox untouched. -/
theorem ignore_unhandled_event_type :
    ∀ (svc : Services) (ev : StripeEvent) (env : RequestEnv)
        (now rid : String) (st : ServerState),
      configured svc = true → ev.type ≠ "checkout.session.completed" →
      handleWebhook svc (Except.ok ev) env now rid st =
        ({ status := 200, body := RespBody.ack rid }, st) := by
  intro svc ev env now rid st hc ht
  simp [handleWebhook, hc, ht]

/-- C7 witness: a concrete `payment_intent.succeeded` event is ignored. -/
theorem ignore_unhandled_event_type_witness :
    handleWebhook svcAll (Except.ok evOther) envOk "t" "r7" st0 =
      ({ status := 200, body := RespBody.ack "r7" }, st0) :=
  ignore_unhandled_event_type svcAll evOther envOk "t" "r7" st0 rfl (by decide)

/-- C8: a missing backing-service client makes every request answer 500
with the configuration-error body and an unchanged state, whatever the
verification outcome would have been (the check precedes verification);
with all clients configured no request path yields 500. -/
theorem config_fault_only_500 :
    (∀ (svc : Services) (verify : Except String StripeEvent) (env : RequestEnv)
        (now rid : String) (st : ServerState),
      configured svc = false →
      handleWebhook svc verify env now rid st =
        ({ status := 500, body := RespBody.notConfigured }, st)) ∧
    (∀ (svc : Services) (verify : Except String StripeEvent) (env : RequestEnv)
        (now rid : String) (st : ServerState),
      configured svc = true →
      (handleWebhook svc verify env now rid st).1.status ≠ 500) := by
  constructor
  · intro svc verify env now rid st hc
    simp [handleWebhook, hc]
  · intro svc verify env now rid st hc
    cases verify with
    | error msg => simp [handleWebhook, hc]
    | ok ev =>
      rw [ack_of_ok svc ev env now rid st hc]
      simp

/-- C8 witness: with the email client missing, a request that would have
verified is still answered 500 before verification matters. -/
theorem config_fault_only_500_witness :
    handleWebhook svcNoResend (Except.ok evFull) envOk "t" "r8" st0 =
      ({ status := 500, body := RespBody.notConfigured }, st0) :=
  config_fault_only_500.1 svcNoResend (Except.ok evFull) envOk "t" "r8" st0 rfl

/-- C2: delivering the same authenticated checkout-completed event twice
performs a second unconditional insert — the store then holds two rows
with the same `stripe_session_id` and both deliveries were acknowledged;
the handler has no upsert, on-conflict clause or existence check. -/
theorem duplicate_delivery_inserts_second_record :
    runTwice.2.orders.map OrderData.stripe_session_id =
      [JVal.str "cs_1", JVal.str "cs_1"] ∧
    runOnce.1 = { status := 200, body := RespBody.ack "r1" } ∧
    runTwice.1 = { status := 200, body := RespBody.ack "r2" } :=
  ⟨rfl, rfl, rfl⟩

/-- C3 counterexample: on a concrete checkout-completed event whose insert
fails, the handler records no email attempt at all (the result state is the
unchanged empty state), while the claim says the send is still attempted. -/
theorem persist_failure_skips_email :
    (handleWebhook svcAll (Except.ok evFull) envInsertFail
        "2025-01-01T00:00:00.000Z" "r3" st0).2 = st0 ∧
    (handleWebhook svcAll (Except.ok evFull) envInsertFail
        "2025-01-01T00:00:00.000Z" "r3" st0).1.status = 200 ∧
    st0.sentEmails = [] :=
  ⟨rfl, rfl, rfl⟩

/-- C3 amended: within one request the insert completes before the email
step, and the email is attempted only when the insert succeeded; an insert
failure aborts the pipeline (it is absorbed, not surfaced), so the
confirmation email is not attempted in that case. -/
theorem notify_gated_on_persist :
    ∀ (svc : Services) (ev : StripeEvent) (env : RequestEnv)
        (now rid : String) (st : ServerState),
      configured svc = true → ev.type = "checkout.session.completed" →
      ((env.insertError = none →
        (handleWebhook svc (Except.ok ev) env now rid st).2 =
          { orders := st.orders ++ [buildOrderData ev.session now],
            sentEmails :=
              st.sentEmails ++ [confirmationEmailPayload (buildOrderData ev.session now)] }) ∧
      (env.insertError ≠ none →
        (handleWebhook svc (Except.ok ev) env now rid st).2 = st)) := by
  intro svc ev env now rid st hc ht
  obtain ⟨hs, hsu, hr⟩ := configured_fields svc hc
  constructor
  · intro he
    simp [handleWebhook, hc, ht, hsu, hr, he]
  · intro he
    rcases h : env.insertError with _ | e
    · exact absurd h he
    · simp [handleWebhook, hc, ht, hsu, hr, h]

/-- C3 amended witness: a concrete successful insert is followed by
exactly the one email attempt for that record. -/
theorem notify_gated_on_persist_witness :
    (handleWebhook svcAll (Except.ok evFull) envOk
        "2025-01-01T00:00:00.000Z" "r3w" st0).2 =
      { orders := [buildOrderData sFull "2025-01-01T00:00:00.000Z"],
        sentEmails := [confirmationEmailPayload (buildOrderData sFull "2025-01-01T00:00:00.000Z")] } :=
  (notify_gated_on_persist svcAll evFull envOk
    "2025-01-01T00:00:00.000Z" "r3w" st0 rfl rfl).1 rfl

/-- C4 counterexample: a present but non-numeric `pageCount` ("abc") or
`totalPrice` ("n/a") materializes as `NaN`, which is a different value from
the `null` default used when the field is absent; no error is raised. -/
theorem nonnumeric_metadata_yields_nan :
    (buildOrderData sBadNumeric "t4").page_count = JVal.nan ∧
    (buildOrderData sBadNumeric "t4").total_price = JVal.nan ∧
    (buildOrderData sNoMeta "t4").page_count = JVal.null ∧
    (buildOrderData sNoMeta "t4").total_price = JVal.null ∧
    JVal.nan ≠ JVal.null :=
  ⟨rfl, rfl, rfl, rfl, by decide⟩

/-- C4 amended: a page-count or total-price metadata value that is present,
non-empty and not parseable as a number materializes as `NaN` (not as the
`null` default of an absent field); materialization never raises. -/
theorem nonnumeric_metadata_amended :
    ∀ (session : Session) (m : Metadata) (str now : String),
      session.metadata = some m →
      ((m.pageCount = some str → str ≠ "" → jsParseInt str = JVal.nan →
        (buildOrderData session now).page_count = JVal.nan) ∧
      (m.totalPrice = some str → str ≠ "" → jsParseFloat str = JVal.nan →
        (buildOrderData session now).total_price = JVal.nan)) := by
  intro session m str now hm
  constructor
  · intro hf hne hp
    simp [buildOrderData, condParseField, metaField, optStr, hm, hf, hne, hp]
  · intro hf hne hp
    simp [buildOrderData, condParseField, metaField, optStr, hm, hf, hne, hp]

/-- C4 amended witness: the concrete non-numeric page count "abc". -/
theorem nonnumeric_metadata_amended_witness :
    (buildOrderData sBadNumeric "t4w").page_count = JVal.nan :=
  (nonnumeric_metadata_amended sBadNumeric mdBad "abc" "t4w" rfl).1 rfl (by decide) (by decide)

/-- C5: on a session with no metadata and no customer details, every
optional field except `binding_type` materializes as `null`, but
`binding_type` materializes as `undefined` (its extraction lacks the
`|| null` fallback every sibling field has), so that one field is omitted
from the serialized record instead of being set to the null default. -/
theorem binding_type_missing_is_undefined :
    (buildOrderData sNoMeta "t5").binding_type = JVal.undefined ∧
    (buildOrderData sNoMeta "t5").binding_name = JVal.null ∧
    (buildOrderData sNoMeta "t5").format = JVal.null ∧
    (buildOrderData sNoMeta "t5").paper_weight = JVal.null ∧
    (buildOrderData sNoMeta "t5").printing_option = JVal.null ∧
    (buildOrderData sNoMeta "t5").page_count = JVal.null ∧
    (buildOrderData sNoMeta "t5").total_price = JVal.null ∧
    (buildOrderData sNoMeta "t5").payment_method = JVal.null ∧
    (buildOrderData sNoMeta "t5").customer_name = JVal.null ∧
    (buildOrderData sNoMeta "t5").customer_address = JVal.null ∧
    (buildOrderData sNoMeta "t5").customer_phone = JVal.null ∧
    JVal.undefined ≠ JVal.null :=
  ⟨rfl, rfl, rfl, rfl, rfl, rfl, rfl, rfl, rfl, rfl, rfl, by decide⟩

/-- C9 counterexample: the email actually handed to the provider for a
fully populated order has the fixed generic body — the same body as for an
order with no configuration at all — and that body mentions none of the
order-configuration values (binding name, page count, format), refuting
that it contains a human-readable summary of those fields. -/
theorem email_body_lacks_order_summary :
    (handleWebhook svcAll (Except.ok evFull) envOk
        "2025-01-01T00:00:00.000Z" "r9" st0).2.sentEmails =
      [confirmationEmailPayload (buildOrderData sFull "2025-01-01T00:00:00.000Z")] ∧
    (confirmationEmailPayload (buildOrderData sFull "2025-01-01T00:00:00.000Z")).html =
      confirmationHtml ∧
    (confirmationEmailPayload (buildOrderData sNoMeta "2025-01-01T00:00:00.000Z")).html =
      confirmationHtml ∧
    (buildOrderData sFull "2025-01-01T00:00:00.000Z").binding_name ≠
      (buildOrderData sNoMeta "2025-01-01T00:00:00.000Z").binding_name ∧
    containsSubstr confirmationHtml "Softcover" = false ∧
    containsSubstr confirmationHtml "10" = false ∧
    containsSubstr confirmationHtml "A4" = false :=
  ⟨rfl, rfl, rfl, by decide, by decide, by decide, by decide⟩

/-- C9 amended: for a checkout-completed event whose insert succeeded,
exactly one email attempt is made (no retry), addressed to the record's
`user_email`, from `info@pocat.de`, with the fixed generic subject and
body; when the insert failed no attempt is made. -/
theorem single_fixed_email_attempt :
    ∀ (svc : Services) (ev : StripeEvent) (env : RequestEnv)
        (now rid : String) (st : ServerState),
      configured svc = true → ev.type = "checkout.session.completed" →
      ((env.insertError = none →
        (handleWebhook svc (Except.ok ev) env now rid st).2.sentEmails =
          st.sentEmails ++
            [{ from_ := "info@pocat.de"
               to_ := (buildOrderData ev.session now).user_email
               subject := "Danke für deine Bestellung"
               html := confirmationHtml }]) ∧
      (env.insertError ≠ none →
        (handleWebhook svc (Except.ok ev) env now rid st).2.sentEmails = st.sentEmails)) := by
  intro svc ev env now rid st hc ht
  obtain ⟨hs, hsu, hr⟩ := configured_fields svc hc
  constructor
  · intro he
    simp [handleWebhook, hc, ht, hsu, hr, he, confirmationEmailPayload]
  · intro he
    rcases h : env.insertError with _ | e
    · exact absurd h he
    · simp [handleWebhook, hc, ht, hsu, hr, h]

/-- C9 amended witness: the one concrete attempt for `sFull`. -/
theorem single_fixed_email_attempt_witness :
    (handleWebhook svcAll (Except.ok evFull) envOk
        "2025-01-01T00:00:00.000Z" "r9w" st0).2.sentEmails =
      [{ from_ := "info@pocat.de"
         to_ := (buildOrderData sFull "2025-01-01T00:00:00.000Z").user_email
         subject := "Danke für deine Bestellung"
         html := confirmationHtml }] :=
  (single_fixed_email_attempt svcAll evFull envOk
    "2025-01-01T00:00:00.000Z" "r9w" st0 rfl rfl).1 rfl

/-- C10: when `amount_total` is a number q, the record stores `amount = q`
(integer minor units) and the derived `price = q / 100`, while
`total_price` is computed from the metadata `totalPrice` string alone
(sessions agreeing on metadata agree on `total_price` whatever their
amounts); on the concrete fixture the two price representations disagree
(9.99 from metadata vs 6.95 = 695 / 100) and are stored unreconciled. -/
theorem price_fields_not_reconciled :
    (∀ (session : Session) (now : String) (q : ℚ),
      session.amount_total = some q →
      (buildOrderData session now).amount = JVal.num q ∧
      (buildOrderData session now).price = JVal.num (q / 100)) ∧
    (∀ (s₁ s₂ : Session) (n₁ n₂ : String), s₁.metadata = s₂.metadata →
      (buildOrderData s₁ n₁).total_price = (buildOrderData s₂ n₂).total_price) ∧
    (buildOrderData sFull "t10").total_price ≠ (buildOrderData sFull "t10").price := by
  refine ⟨?_, ?_, ?_⟩
  · intro session now q h
    constructor
    · simp [buildOrderData, amountField, h]
    · simp [buildOrderData, priceField, h]
  · intro s₁ s₂ n₁ n₂ h
    simp [buildOrderData, metaField, h]
  · have h1 : (buildOrderData sFull "t10").total_price =
        JVal.num (1 * (((digitsToNat ['9'] : ℚ)) + ((digitsToNat ['9', '9'] : ℚ)) / (10 : ℚ) ^ 2)
          * (10 : ℚ) ^ (0 : ℤ)) := rfl
    have h2 : (buildOrderData sFull "t10").price = JVal.num ((695 : ℚ) / 100) := rfl
    have d1 : digitsToNat ['9'] = 9 := by decide
    have d2 : digitsToNat ['9', '9'] = 99 := by decide
    rw [h1, h2, d1, d2]
    simp only [ne_eq, JVal.num.injEq]
    norm_num

/-- C10 witness: the fixture's stored minor-unit amount and derived price. -/
theorem price_fields_not_reconciled_witness :
    (buildOrderData sFull "t10w").amount = JVal.num 695 ∧
    (buildOrderData sFull "t10w").price = JVal.num ((695 : ℚ) / 100) :=
  price_fields_not_reconciled.1 sFull "t10w" 695 rfl
